import Mathlib

/-!
Shallow embedding of `backend/main.py` (Imperva onboarding evaluator):
the domain model, the rule-based engine `evaluate_with_rules`, the
GPT-path helper `evaluate_with_gpt` (its pure post-processing of the
completion outcome), and the storage endpoints `submit_request` and
`get_request`.  Python strings are modelled as Lean `String`
(`List Char` where convenient); Python `int` as `Int`.
-/

namespace Onboarding

/-! ### Python string primitives used by the source -/

/-- Python `str.lower()` restricted to ASCII case mapping
(`Char.toLower` maps exactly the letters `A`-`Z`). -/
def pyLower (s : String) : String := ⟨s.data.map Char.toLower⟩

/-- Python `str.upper()` restricted to ASCII case mapping. -/
def pyUpper (s : String) : String := ⟨s.data.map Char.toUpper⟩

/-- Substring test: Python `pat in s` on strings, as character lists. -/
def hasSub (pat : List Char) : List Char → Bool
  | [] => pat.isPrefixOf []
  | c :: rest => pat.isPrefixOf (c :: rest) || hasSub pat rest

/-- Strip characters satisfying `p` from both ends of a character list:
the common core of Python `str.strip()` and `str.strip(chars)`. -/
def pyStripTrim (p : Char → Bool) (s : List Char) : List Char :=
  ((s.dropWhile p).reverse.dropWhile p).reverse

/-- Python whitespace as stripped by a bare `str.strip()`. -/
def pyIsSpace (c : Char) : Bool :=
  c = ' ' || c = '\t' || c = '\n' || c = '\r' || c = '\x0b' || c = '\x0c'

/-- Python `str.strip()` (no argument): trim whitespace from both ends. -/
def pyStrip (s : List Char) : List Char := pyStripTrim pyIsSpace s

/-- Python `str.strip(chars)`: trim any of the given characters from both
ends. -/
def pyStripChars (chars : List Char) (s : List Char) : List Char :=
  pyStripTrim (fun c => chars.contains c) s

/-- One fuel-indexed pass of Python `str.replace(old, new)`: replace
non-overlapping occurrences left to right.  The fuel only bounds the
recursion; `pyReplace` supplies enough for the whole input. -/
def pyReplaceAux (pat repl : List Char) : Nat → List Char → List Char
  | 0, s => s
  | _ + 1, [] => []
  | fuel + 1, c :: rest =>
    if pat ≠ [] ∧ pat.isPrefixOf (c :: rest) then
      repl ++ pyReplaceAux pat repl fuel ((c :: rest).drop pat.length)
    else
      c :: pyReplaceAux pat repl fuel rest

/-- Python `s.replace(pat, repl)` for a non-empty `pat`: every
non-overlapping occurrence, scanned left to right. -/
def pyReplace (pat repl s : List Char) : List Char :=
  pyReplaceAux pat repl s.length s

/-! ### Domain model (`pydantic` models of `main.py`) -/

/-- Model of `NetworkRequest` from `main.py`.  `contact_email` is `EmailStr` in the
source; its syntactic validation happens in the HTTP layer, so here it is
plain text. -/
structure NetworkRequest where
  company_name : String
  industry : String
  contact_email : String
  regions : List String
  traffic_level : String
  cloud_providers : List String
  critical_apps : List String
  has_waf : Bool
  has_mfa_for_admins : Bool
  logging_strategy : String
  compliance : List String
deriving DecidableEq

/-- Model of `EvaluationResult` from `main.py`. -/
structure EvaluationResult where
  decision : String
  risk_score : Int
  issues : List String
  summary : String
deriving DecidableEq

/-- Model of `StoredRequest` from `main.py`; `created_at` is kept as its ISO-8601
text (the source serialises it to text with `isoformat`). -/
structure StoredRequest where
  id : String
  created_at : String
  request : NetworkRequest
  evaluation : Option EvaluationResult
deriving DecidableEq

/-! ### Rule engine (`evaluate_with_rules`, `main.py` lines 90-132) -/

/-- Condition of `main.py` line 96: `req.traffic_level.lower() == "high"`. -/
def cond_high_traffic (req : NetworkRequest) : Bool :=
  pyLower req.traffic_level == "high"

/-- Condition of line 99: `any(r.upper() == "APAC" for r in req.regions)`. -/
def cond_apac_region (req : NetworkRequest) : Bool :=
  req.regions.any (fun r => pyUpper r == "APAC")

/-- Condition of line 102: `not req.has_waf`. -/
def cond_missing_waf (req : NetworkRequest) : Bool := !req.has_waf

/-- Condition of line 106: `not req.has_mfa_for_admins`. -/
def cond_missing_mfa (req : NetworkRequest) : Bool := !req.has_mfa_for_admins

/-- Condition of line 110: `"centralized" not in req.logging_strategy.lower()`. -/
def cond_logging_not_centralized (req : NetworkRequest) : Bool :=
  !(hasSub "centralized".data (pyLower req.logging_strategy).data)

/-- Condition of line 114:
`not any("PCI" in c.upper() or "ISO" in c.upper() for c in req.compliance)`. -/
def cond_no_compliance (req : NetworkRequest) : Bool :=
  !(req.compliance.any fun c =>
      hasSub "PCI".data (pyUpper c).data || hasSub "ISO".data (pyUpper c).data)

/-- Embedding of `evaluate_with_rules` from `main.py`: sequential additive scoring with
issue accumulation, threshold decision, and the summary line. -/
def evaluate_with_rules (req : NetworkRequest) : EvaluationResult :=
  let score : Int := 0
  let issues : List String := []
  let score := if cond_high_traffic req then score + 20 else score
  let score := if cond_apac_region req then score + 10 else score
  let si :=
    if cond_missing_waf req then
      (score + 30, issues ++ ["No WAF in front of critical applications."])
    else (score, issues)
  let score := si.1
  let issues := si.2
  let si :=
    if cond_missing_mfa req then
      (score + 25, issues ++ ["MFA is not enabled for admin accounts."])
    else (score, issues)
  let score := si.1
  let issues := si.2
  let si :=
    if cond_logging_not_centralized req then
      (score + 15, issues ++ ["Logging does not appear to be clearly centralized."])
    else (score, issues)
  let score := si.1
  let issues := si.2
  let si :=
    if cond_no_compliance req then
      (score + 20, issues ++ ["No major compliance frameworks (PCI/ISO) are listed."])
    else (score, issues)
  let score := si.1
  let issues := si.2
  let decision :=
    if score < 30 then "approve"
    else if score < 60 then "needs_review"
    else "reject"
  let summary :=
    "Rule-based evaluation score " ++ toString score ++ " with "
      ++ toString issues.length ++ " issue(s)."
  { decision := decision, risk_score := score, issues := issues, summary := summary }

/-- Closed-form total score of the rule engine: the sum of the point
values of the triggered conditions. -/
def ruleScore (req : NetworkRequest) : Int :=
  (if cond_high_traffic req then 20 else 0)
    + (if cond_apac_region req then 10 else 0)
    + (if cond_missing_waf req then 30 else 0)
    + (if cond_missing_mfa req then 25 else 0)
    + (if cond_logging_not_centralized req then 15 else 0)
    + (if cond_no_compliance req then 20 else 0)

/-- Closed-form issue list of the rule engine: the issue texts of the
triggered issue-carrying conditions, in source order. -/
def ruleIssues (req : NetworkRequest) : List String :=
  (if cond_missing_waf req then ["No WAF in front of critical applications."] else [])
    ++ (if cond_missing_mfa req then ["MFA is not enabled for admin accounts."] else [])
    ++ (if cond_logging_not_centralized req then
          ["Logging does not appear to be clearly centralized."] else [])
    ++ (if cond_no_compliance req then
          ["No major compliance frameworks (PCI/ISO) are listed."] else [])

/-- The four fixed issue strings the rule engine can emit. -/
def ruleIssueTexts : List String :=
  ["No WAF in front of critical applications.",
   "MFA is not enabled for admin accounts.",
   "Logging does not appear to be clearly centralized.",
   "No major compliance frameworks (PCI/ISO) are listed."]

/-- The request of the spec's worked example: high traffic, no APAC, no
WAF, no admin MFA, local-only logging, no compliance entries. -/
def demoRequest : NetworkRequest :=
  { company_name := "Acme"
  , industry := "Banking"
  , contact_email := "ops@acme.example"
  , regions := ["EMEA"]
  , traffic_level := "high"
  , cloud_providers := ["AWS"]
  , critical_apps := ["Online banking portal"]
  , has_waf := false
  , has_mfa_for_admins := false
  , logging_strategy := "local files only"
  , compliance := [] }

/-- A request triggering no condition (the spec's zero-score example):
low traffic, no APAC, WAF and MFA present, centralized logging, ISO
compliance. -/
def approveRequest : NetworkRequest :=
  { demoRequest with
    traffic_level := "low"
  , has_waf := true
  , has_mfa_for_admins := true
  , logging_strategy := "centralized SIEM"
  , compliance := ["ISO27001"] }

/-- A request scoring exactly 30: only the missing-WAF condition fires. -/
def review30Request : NetworkRequest :=
  { approveRequest with has_waf := false }

/-- A request scoring exactly 60: high traffic (+20), APAC (+10), and
missing WAF (+30). -/
def reject60Request : NetworkRequest :=
  { approveRequest with
    traffic_level := "high"
  , regions := ["apac"]
  , has_waf := false }

/-! ### GPT path (`evaluate_with_gpt`, `main.py` lines 139-203)

The completion call itself is the external LLM service; its outcome is an
explicit argument (`Except` error or raw response text).  Everything the
function does with that outcome — whitespace strip, fence stripping, JSON
parse, field defaults, and the `except` branch — is embedded below. -/

/-- The backtick character (the source writes it only inside string
literals). -/
def backtick : Char := Char.ofNat 96

/-- The opening/closing fence marker, three backticks. -/
def fenceMarker : List Char := [backtick, backtick, backtick]

/-- The characters of `json`, the only language tag the source strips. -/
def jsonTag : List Char := ['j', 's', 'o', 'n']

/-- Fence handling of `main.py` lines 177-179: when the text starts with
three backticks, strip backticks from both ends, then delete every
occurrence of `json` followed by a newline (LF, then CRLF). -/
def stripFences (content : List Char) : List Char :=
  if fenceMarker.isPrefixOf content then
    pyReplace (jsonTag ++ ['\r', '\n']) []
      (pyReplace (jsonTag ++ ['\n']) [] (pyStripChars [backtick] content))
  else content

/-- A Markdown fenced block: three backticks, a language tag immediately
followed by a newline (empty tag for an unannotated fence), the text, a
newline, and the closing fence. -/
def wrapFence (tag t : List Char) : List Char :=
  fenceMarker ++ tag ++ '\n' :: (t ++ '\n' :: fenceMarker)

/-- Modelled interface of the external JSON parser (`json.loads`): two
texts parse identically when they agree up to surrounding whitespace,
which `json.loads` ignores. -/
def jsonParseAgrees (a b : List Char) : Prop := pyStrip a = pyStrip b

/-- A JSON number as Python's `json.loads` produces it: an `int` or a
`float` (modelled as a rational). -/
inductive PyNum where
  | int : Int → PyNum
  | float : Rat → PyNum
deriving DecidableEq

/-- Python `int(...)` on a number: identity on ints, truncation toward
zero on floats. -/
def pyInt : PyNum → Int
  | .int i => i
  | .float q => Int.tdiv q.num q.den

/-- A successfully parsed and typed JSON object, restricted to the four
fields `evaluate_with_gpt` reads with `.get`: `none` models an absent
key.  A response whose parse or field typing fails (non-object JSON,
non-numeric `risk_score`, and so on) is modelled as a failed parse. -/
structure ParsedData where
  decision : Option String
  risk_score : Option PyNum
  issues : Option (List String)
  summary : Option String

/-- The `EvaluationResult(...)` construction of `main.py` lines 183-188:
each field from the parsed object, with the source's per-field default
when the key is absent, and `int(...)` coercion of the risk score. -/
def buildEvaluation (data : ParsedData) : EvaluationResult :=
  { decision := data.decision.getD "needs_review"
  , risk_score := pyInt (data.risk_score.getD (.int 50))
  , issues := data.issues.getD []
  , summary := data.summary.getD "No summary provided." }

/-- Python `str.strip()` at `String` level (`content.strip()` of line 174). -/
def pyStripStr (s : String) : String := ⟨pyStrip s.data⟩

/-- Fence handling `stripFences` at `String` level. -/
def stripFencesStr (s : String) : String := ⟨stripFences s.data⟩

/-- The error the `except` branch of `evaluate_with_gpt` itself raises:
it calls `rule_based_evaluation(request)`, but no such function (and no
such variable) exists in the module — the fallback line raises a
`NameError`, which propagates to the caller. -/
def nameErrorMessage : String :=
  "NameError: name rule_based_evaluation is not defined"

/-- Embedding of `evaluate_with_gpt` from `main.py`: post-processing of the completion
outcome.  `jsonLoads` is the external JSON parse + field typing (`none`
for any parse/typing failure); `completion` is the outcome of the
completion-service call of lines 165-174.  Any failure reaches the
`except` branch, which raises `NameError` (see `nameErrorMessage`). -/
def evaluate_with_gpt (jsonLoads : String → Option ParsedData)
    (req : NetworkRequest) (completion : Except String String) :
    Except String EvaluationResult :=
  match completion with
  | .error _ => .error nameErrorMessage
  | .ok raw =>
    let content := pyStripStr raw
    let content := stripFencesStr content
    match jsonLoads content with
    | none => .error nameErrorMessage
    | some data => .ok (buildEvaluation data)

/-! ### Storage endpoints (`main.py` lines 230-277)

The store file's contents are passed and returned explicitly:
`_load_requests` is the incoming `store` argument, `_save_requests` the
returned store.  The JSON round-trip `json.loads(stored.model_dump_json())`
is the identity at this level of abstraction. -/

/-- Embedding of `submit_request` (`POST /submit`): build the stored record with the
freshly generated id and timestamp (both passed explicitly, since `uuid4`
and `utcnow` are external), append it, and return it. -/
def submit_request (store : List StoredRequest) (req : NetworkRequest)
    (newId now : String) : StoredRequest × List StoredRequest :=
  let stored : StoredRequest :=
    { id := newId, created_at := now, request := req, evaluation := none }
  (stored, store ++ [stored])

/-- The 404 error of `get_request`: `HTTPException(404, "Request not found")`. -/
def notFoundError : Nat × String := (404, "Request not found")

/-- The `for` loop of `get_request`: first record whose id matches, else
the 404 error. -/
def get_request_loop (request_id : String) :
    List StoredRequest → Except (Nat × String) StoredRequest
  | [] => .error notFoundError
  | item :: rest =>
    if item.id = request_id then .ok item else get_request_loop request_id rest

/-- Embedding of `get_request` (`GET /requests/{id}`): linear search over the loaded
store; the store itself is returned unchanged (the handler never saves). -/
def get_request (request_id : String) (store : List StoredRequest) :
    Except (Nat × String) StoredRequest × List StoredRequest :=
  (get_request_loop request_id store, store)

/-- A concrete stored record. -/
def demoStoredA : StoredRequest :=
  { id := "dup", created_at := "2024-01-01T00:00:00", request := demoRequest
  , evaluation := none }

/-- A second stored record sharing `demoStoredA`'s id. -/
def demoStoredB : StoredRequest :=
  { id := "dup", created_at := "2024-01-02T00:00:00", request := approveRequest
  , evaluation := some (evaluate_with_rules approveRequest) }

/-- A concrete store holding two records with the same id. -/
def demoStore : List StoredRequest := [demoStoredA, demoStoredB]

/-! ### Helper lemmas -/

/-- The sequential accumulation of `evaluate_with_rules` equals its
closed forms: score `ruleScore`, issues `ruleIssues`, with the threshold
decision and summary computed from them. -/
theorem evaluate_with_rules_eq (req : NetworkRequest) :
    evaluate_with_rules req =
      { decision :=
          if ruleScore req < 30 then "approve"
          else if ruleScore req < 60 then "needs_review" else "reject"
      , risk_score := ruleScore req
      , issues := ruleIssues req
      , summary :=
          "Rule-based evaluation score " ++ toString (ruleScore req) ++ " with "
            ++ toString (ruleIssues req).length ++ " issue(s)." } := by
  cases h1 : cond_high_traffic req <;>
  cases h2 : cond_apac_region req <;>
  cases h3 : cond_missing_waf req <;>
  cases h4 : cond_missing_mfa req <;>
  cases h5 : cond_logging_not_centralized req <;>
  cases h6 : cond_no_compliance req <;>
    simp [evaluate_with_rules, ruleScore, ruleIssues, h1, h2, h3, h4, h5, h6]

/-- Looking up an id that no record of `store` carries skips all of
`store`. -/
theorem get_request_loop_append_fresh (newId : String)
    (store : List StoredRequest) (s : StoredRequest)
    (hfresh : ∀ r ∈ store, r.id ≠ newId) :
    get_request_loop newId (store ++ [s]) = get_request_loop newId [s] := by
  induction store with
  | nil => rfl
  | cons a rest ih =>
    have ha : a.id ≠ newId := hfresh a (List.mem_cons_self a rest)
    show (if a.id = newId then Except.ok a else get_request_loop newId (rest ++ [s]))
      = get_request_loop newId [s]
    rw [if_neg ha]
    exact ih fun r hr => hfresh r (List.mem_cons_of_mem a hr)

/-- The `get_request` loop is exactly a first-match linear search. -/
theorem get_request_loop_eq_find (request_id : String)
    (store : List StoredRequest) :
    get_request_loop request_id store
      = match store.find? (fun x => x.id == request_id) with
        | some r => .ok r
        | none => .error notFoundError := by
  induction store with
  | nil => rfl
  | cons a rest ih =>
    by_cases ha : a.id = request_id
    · simp [get_request_loop, List.find?_cons, ha]
    · simp [get_request_loop, List.find?_cons, ha, ih]

/-- Replacement leaves a text without occurrences of the pattern
unchanged, whatever the fuel. -/
theorem pyReplaceAux_no_occur (pat repl : List Char) (fuel : Nat) :
    ∀ s : List Char, hasSub pat s = false → pyReplaceAux pat repl fuel s = s := by
  induction fuel with
  | zero => intro s _; rfl
  | succ n ih =>
    intro s h
    cases s with
    | nil => rfl
    | cons c rest =>
      have h' : pat.isPrefixOf (c :: rest) = false ∧ hasSub pat rest = false := by
        simpa [hasSub] using h
      simp only [pyReplaceAux]
      rw [if_neg]
      · exact congrArg (c :: ·) (ih rest h'.2)
      · rintro ⟨-, hp⟩
        rw [h'.1] at hp
        exact Bool.noConfusion hp

/-- Replacement at a position where the (non-empty) pattern matches
consumes the pattern and emits the replacement. -/
theorem pyReplaceAux_prefix (pat repl rest : List Char) (hpat : pat ≠ [])
    (fuel : Nat) :
    pyReplaceAux pat repl (fuel + 1) (pat ++ rest)
      = repl ++ pyReplaceAux pat repl fuel rest := by
  obtain ⟨p, pt, rfl⟩ : ∃ p pt, pat = p :: pt := by
    cases pat with
    | nil => exact absurd rfl hpat
    | cons p pt => exact ⟨p, pt, rfl⟩
  show pyReplaceAux (p :: pt) repl (fuel + 1) (p :: (pt ++ rest)) = _
  simp only [pyReplaceAux]
  rw [if_pos]
  · congr 1
    rw [show (p :: (pt ++ rest)) = (p :: pt) ++ rest from rfl, List.drop_left]
  · refine ⟨by simp, ?_⟩
    rw [show (p :: (pt ++ rest)) = (p :: pt) ++ rest from rfl,
      List.isPrefixOf_iff_prefix]
    exact List.prefix_append _ _

/-- Python `str.replace` on a text with no occurrence of the pattern is the
identity. -/
theorem pyReplace_no_occur (pat repl s : List Char)
    (h : hasSub pat s = false) : pyReplace pat repl s = s :=
  pyReplaceAux_no_occur pat repl s.length s h

/-- Python `str.replace` on `pat ++ rest` with no further occurrence in `rest`
replaces exactly the leading occurrence. -/
theorem pyReplace_prefix_no_occur (pat repl rest : List Char) (hpat : pat ≠ [])
    (h : hasSub pat rest = false) :
    pyReplace pat repl (pat ++ rest) = repl ++ rest := by
  obtain ⟨p, pt, rfl⟩ : ∃ p pt, pat = p :: pt := by
    cases pat with
    | nil => exact absurd rfl hpat
    | cons p pt => exact ⟨p, pt, rfl⟩
  calc pyReplace (p :: pt) repl ((p :: pt) ++ rest)
      = pyReplaceAux (p :: pt) repl ((pt ++ rest).length + 1) ((p :: pt) ++ rest) :=
        rfl
    _ = repl ++ pyReplaceAux (p :: pt) repl (pt ++ rest).length rest :=
        pyReplaceAux_prefix (p :: pt) repl rest (by simp) _
    _ = repl ++ rest := by
        rw [pyReplaceAux_no_occur (p :: pt) repl _ rest h]

/-- Trimming a list ending in a trimmed character equals trimming the
list without it. -/
theorem pyStripTrim_append_last (p : Char → Bool) (c : Char) (hc : p c = true)
    (t : List Char) : pyStripTrim p (t ++ [c]) = pyStripTrim p t := by
  unfold pyStripTrim
  rw [List.dropWhile_append]
  by_cases he : (t.dropWhile p).isEmpty
  · rw [if_pos he]
    have ht : t.dropWhile p = [] := by simpa using he
    rw [ht]
    simp [List.dropWhile_cons, hc]
  · rw [if_neg he]
    rw [List.reverse_append]
    simp [List.dropWhile_cons, hc]

/-- Stripping backticks from a `json`-tagged fenced block leaves the tag
line, the text, and the trailing newline. -/
theorem pyStripChars_wrapFence_json (t : List Char) :
    pyStripChars [backtick] (wrapFence jsonTag t)
      = (jsonTag ++ ['\n']) ++ (t ++ ['\n']) := by
  have e1 : 'j' ≠ backtick := by decide
  have e2 : 's' ≠ backtick := by decide
  have e3 : 'o' ≠ backtick := by decide
  have e4 : 'n' ≠ backtick := by decide
  have e5 : '\n' ≠ backtick := by decide
  simp [pyStripChars, pyStripTrim, wrapFence, fenceMarker, jsonTag,
    List.dropWhile_cons, List.dropWhile_append, List.reverse_append,
    e1, e2, e3, e4, e5]

/-! ### Claim theorems: rule engine -/

/-- C2: for every NetworkRequest, the rule engine's risk_score equals
exactly the sum of the point values of the triggered conditions (+20 high
traffic, +10 APAC, +30 no WAF, +25 no admin MFA, +15 logging not
centralized, +20 no PCI/ISO compliance), and its issues list has exactly
one entry per triggered issue-carrying condition (the last four). -/
theorem rules_score_is_sum_and_issue_count (req : NetworkRequest) :
    (evaluate_with_rules req).risk_score
        = (if cond_high_traffic req then 20 else 0)
          + (if cond_apac_region req then 10 else 0)
          + (if cond_missing_waf req then 30 else 0)
          + (if cond_missing_mfa req then 25 else 0)
          + (if cond_logging_not_centralized req then 15 else 0)
          + (if cond_no_compliance req then 20 else 0)
      ∧ (evaluate_with_rules req).issues.length
        = (if cond_missing_waf req then 1 else 0)
          + (if cond_missing_mfa req then 1 else 0)
          + (if cond_logging_not_centralized req then 1 else 0)
          + (if cond_no_compliance req then 1 else 0) := by
  rw [evaluate_with_rules_eq]
  refine ⟨rfl, ?_⟩
  show (ruleIssues req).length = _
  unfold ruleIssues
  cases cond_missing_waf req <;> cases cond_missing_mfa req <;>
    cases cond_logging_not_centralized req <;> cases cond_no_compliance req <;>
      simp

/-- C3: for every NetworkRequest, the rule engine's decision is exactly
the threshold function of the accumulated score (score < 30 approve,
30 ≤ score < 60 needs_review, 60 ≤ score reject); concrete boundary
requests realise score 30 (needs_review), score 60 (reject), and an
approving score below 30. -/
theorem rules_decision_thresholds :
    (∀ req : NetworkRequest,
        (evaluate_with_rules req).decision =
          if (evaluate_with_rules req).risk_score < 30 then "approve"
          else if (evaluate_with_rules req).risk_score < 60 then "needs_review"
          else "reject")
      ∧ (evaluate_with_rules review30Request).risk_score = 30
      ∧ (evaluate_with_rules review30Request).decision = "needs_review"
      ∧ (evaluate_with_rules reject60Request).risk_score = 60
      ∧ (evaluate_with_rules reject60Request).decision = "reject"
      ∧ (evaluate_with_rules approveRequest).risk_score = 0
      ∧ (evaluate_with_rules approveRequest).decision = "approve" := by
  refine ⟨fun req => ?_, by decide, by decide, by decide, by decide, by decide,
    by decide⟩
  rw [evaluate_with_rules_eq]

/-- C4: on the spec's worked example (high traffic, no APAC, no WAF, no
admin MFA, local-only logging, empty compliance) the rule engine returns
risk_score 110 = 20+30+25+15+20, decision reject, and exactly 4 issues —
in particular the score exceeds the documented 0-100 range. -/
theorem rules_demo_example :
    (evaluate_with_rules demoRequest).risk_score = 20 + 30 + 25 + 15 + 20
      ∧ (evaluate_with_rules demoRequest).risk_score = 110
      ∧ (evaluate_with_rules demoRequest).decision = "reject"
      ∧ (evaluate_with_rules demoRequest).issues.length = 4
      ∧ 100 < (evaluate_with_rules demoRequest).risk_score := by decide

/-- C9: whenever the rule engine decides reject, its issues list is
non-empty — the two conditions without issue text contribute at most 30,
so a score of 60 or more forces an issue-carrying condition. -/
theorem rules_reject_has_issue (req : NetworkRequest)
    (h : (evaluate_with_rules req).decision = "reject") :
    (evaluate_with_rules req).issues ≠ [] := by
  rw [evaluate_with_rules_eq] at h ⊢
  replace h : (if ruleScore req < 30 then "approve"
      else if ruleScore req < 60 then "needs_review" else "reject") = "reject" := h
  show ruleIssues req ≠ []
  have h60 : ¬ ruleScore req < 60 := by
    intro hlt
    by_cases h30 : ruleScore req < 30
    · rw [if_pos h30] at h; exact absurd h (by decide)
    · rw [if_neg h30, if_pos hlt] at h; exact absurd h (by decide)
  cases h3 : cond_missing_waf req <;> cases h4 : cond_missing_mfa req <;>
    cases h5 : cond_logging_not_centralized req <;> cases h6 : cond_no_compliance req
  case false.false.false.false =>
    exfalso
    apply h60
    cases h1 : cond_high_traffic req <;> cases h2 : cond_apac_region req <;>
      simp [ruleScore, h1, h2, h3, h4, h5, h6]
  all_goals simp [ruleIssues, h3, h4, h5, h6]

/-- C10: for every NetworkRequest, the rule engine's risk_score lies in
[0, 120], its issues list has at most 4 entries, and every entry is one
of the four fixed issue strings. -/
theorem rules_score_bounded (req : NetworkRequest) :
    0 ≤ (evaluate_with_rules req).risk_score
      ∧ (evaluate_with_rules req).risk_score ≤ 120
      ∧ (evaluate_with_rules req).issues.length ≤ 4
      ∧ (evaluate_with_rules req).issues.all
          (fun s => ruleIssueTexts.contains s) = true := by
  rw [evaluate_with_rules_eq]
  cases h1 : cond_high_traffic req <;> cases h2 : cond_apac_region req <;>
    cases h3 : cond_missing_waf req <;> cases h4 : cond_missing_mfa req <;>
      cases h5 : cond_logging_not_centralized req <;>
        cases h6 : cond_no_compliance req <;>
          simp [ruleScore, ruleIssues, ruleIssueTexts, h1, h2, h3, h4, h5, h6]

/-! ### Claim theorems: GPT path -/

/-- C1: contrary to the fallback property, a failure of the completion
call (or non-JSON content) is propagated to the caller: the `except`
branch calls the undefined name `rule_based_evaluation` on the undefined
variable `request`, raising a `NameError` instead of returning the
rule-engine fallback result. -/
theorem gpt_failure_raises_nameerror :
    evaluate_with_gpt (fun _ => none) demoRequest (.error "RateLimitError")
        = .error nameErrorMessage
      ∧ evaluate_with_gpt (fun _ => none) demoRequest (.ok "I cannot help with that.")
        = .error nameErrorMessage :=
  ⟨rfl, rfl⟩

/-- C5: when the response text parses as a JSON object, the evaluator
returns an EvaluationResult built with per-field defaults for absent
fields (decision needs_review, risk_score 50 with integer coercion,
empty issues, fixed summary), and with present fields taken from the
parsed object. -/
theorem gpt_parsed_defaults (jsonLoads : String → Option ParsedData)
    (req : NetworkRequest) (raw : String) (d : ParsedData)
    (h : jsonLoads (stripFencesStr (pyStripStr raw)) = some d) :
    evaluate_with_gpt jsonLoads req (.ok raw) = .ok (buildEvaluation d)
      ∧ (d.decision = none → (buildEvaluation d).decision = "needs_review")
      ∧ (∀ s, d.decision = some s → (buildEvaluation d).decision = s)
      ∧ (d.risk_score = none → (buildEvaluation d).risk_score = 50)
      ∧ (∀ n, d.risk_score = some n → (buildEvaluation d).risk_score = pyInt n)
      ∧ (d.issues = none → (buildEvaluation d).issues = [])
      ∧ (∀ l, d.issues = some l → (buildEvaluation d).issues = l)
      ∧ (d.summary = none → (buildEvaluation d).summary = "No summary provided.")
      ∧ (∀ s, d.summary = some s → (buildEvaluation d).summary = s) := by
  refine ⟨?_, fun hd => ?_, fun s hs => ?_, fun hd => ?_, fun n hn => ?_,
    fun hd => ?_, fun l hl => ?_, fun hd => ?_, fun s hs => ?_⟩
  · simp [evaluate_with_gpt, h]
  · simp [buildEvaluation, hd]
  · simp [buildEvaluation, hs]
  · simp [buildEvaluation, hd, pyInt]
  · simp [buildEvaluation, hn]
  · simp [buildEvaluation, hd]
  · simp [buildEvaluation, hl]
  · simp [buildEvaluation, hd]
  · simp [buildEvaluation, hs]

/-- Witness for C5 at a concrete parse outcome: the empty object yields
every default, and a fully present object yields its own fields. -/
theorem gpt_parsed_defaults_witness :
    evaluate_with_gpt (fun _ => some ⟨none, none, none, none⟩) demoRequest (.ok "")
        = .ok (buildEvaluation ⟨none, none, none, none⟩)
      ∧ (buildEvaluation ⟨none, none, none, none⟩).decision = "needs_review"
      ∧ (buildEvaluation ⟨none, none, none, none⟩).risk_score = 50 :=
  ⟨(gpt_parsed_defaults (fun _ => some ⟨none, none, none, none⟩) demoRequest ""
      ⟨none, none, none, none⟩ rfl).1,
   (gpt_parsed_defaults (fun _ => some ⟨none, none, none, none⟩) demoRequest ""
      ⟨none, none, none, none⟩ rfl).2.1 rfl,
   (gpt_parsed_defaults (fun _ => some ⟨none, none, none, none⟩) demoRequest ""
      ⟨none, none, none, none⟩ rfl).2.2.2.1 rfl⟩

/-- C6 (counterexample to the claim as stated): a response wrapped in a
fenced block annotated with the language tag `yaml` does not parse
identically to the unwrapped text after the evaluator's fence-stripping
step — the tag line survives (only the tag `json` is deleted). -/
theorem stripFences_wrap_tag_counterexample :
    ¬ jsonParseAgrees
        (stripFences (wrapFence ['y', 'a', 'm', 'l'] ['\x7b', '\x7d']))
        ['\x7b', '\x7d'] := by
  unfold jsonParseAgrees
  decide

/-- C6 (amended): for the language tag `json` — the only tag the code
deletes — wrapping a text in a fenced block and applying the
fence-stripping step yields content that parses identically to the
unwrapped text, provided that the text followed by a newline contains no
occurrence of `json` + LF or `json` + CRLF (the `replace` calls delete
every such occurrence, not only the tag line). -/
theorem stripFences_wrap_json (t : List Char)
    (h1 : hasSub (jsonTag ++ ['\n']) (t ++ ['\n']) = false)
    (h2 : hasSub (jsonTag ++ ['\r', '\n']) (t ++ ['\n']) = false) :
    jsonParseAgrees (stripFences (wrapFence jsonTag t)) t := by
  unfold stripFences
  rw [if_pos]
  · rw [pyStripChars_wrapFence_json,
      pyReplace_prefix_no_occur _ _ _ (by simp [jsonTag]) h1,
      List.nil_append, pyReplace_no_occur _ _ _ h2]
    show pyStripTrim pyIsSpace (t ++ ['\n']) = pyStripTrim pyIsSpace t
    exact pyStripTrim_append_last pyIsSpace '\n' (by decide) t
  · show fenceMarker.isPrefixOf (wrapFence jsonTag t) = true
    rw [wrapFence, List.isPrefixOf_iff_prefix]
    exact List.prefix_append _ _

/-- Witness for C6 (amended) on the text of a small JSON object. -/
theorem stripFences_wrap_json_witness :
    hasSub (jsonTag ++ ['\n']) (['\x7b', '\x7d'] ++ ['\n']) = false
      ∧ jsonParseAgrees (stripFences (wrapFence jsonTag ['\x7b', '\x7d']))
          ['\x7b', '\x7d'] :=
  ⟨by decide, stripFences_wrap_json ['\x7b', '\x7d'] (by decide) (by decide)⟩

/-! ### Claim theorems: storage endpoints -/

/-- C7: submitting a request and then fetching it by the returned id
yields the stored record: its evaluation is absent and its embedded
request equals the submitted input.  The hypothesis models the global
uniqueness of the freshly generated `uuid4` id. -/
theorem submit_then_get (store : List StoredRequest) (req : NetworkRequest)
    (newId now : String) (hfresh : ∀ r ∈ store, r.id ≠ newId) :
    (get_request newId (submit_request store req newId now).2).1
        = .ok (submit_request store req newId now).1
      ∧ (submit_request store req newId now).1.evaluation = none
      ∧ (submit_request store req newId now).1.request = req := by
  refine ⟨?_, rfl, rfl⟩
  show get_request_loop newId (store ++ [_]) = _
  rw [get_request_loop_append_fresh newId store _ hfresh]
  simp [get_request_loop, submit_request]

/-- Witness for C7: submit into the empty store and fetch back. -/
theorem submit_then_get_witness :
    (get_request "id-1"
        (submit_request [] demoRequest "id-1" "2024-01-01T00:00:00").2).1
        = .ok (submit_request [] demoRequest "id-1" "2024-01-01T00:00:00").1
      ∧ (submit_request [] demoRequest "id-1" "2024-01-01T00:00:00").1.evaluation
        = none
      ∧ (submit_request [] demoRequest "id-1" "2024-01-01T00:00:00").1.request
        = demoRequest :=
  submit_then_get [] demoRequest "id-1" "2024-01-01T00:00:00"
    (fun r hr => absurd hr (List.not_mem_nil r))

/-- C8: `GET /requests/{id}` returns the first stored record whose id
matches when one exists, raises the 404 not-found error when none does,
and leaves the store unchanged either way. -/
theorem get_request_found_or_404 (request_id : String)
    (store : List StoredRequest) :
    (get_request request_id store).2 = store
      ∧ (∀ r, store.find? (fun x => x.id == request_id) = some r →
          (get_request request_id store).1 = .ok r)
      ∧ (store.find? (fun x => x.id == request_id) = none →
          (get_request request_id store).1 = .error notFoundError) := by
  refine ⟨rfl, fun r hr => ?_, fun hn => ?_⟩
  · show get_request_loop request_id store = _
    rw [get_request_loop_eq_find, hr]
  · show get_request_loop request_id store = _
    rw [get_request_loop_eq_find, hn]

/-- Witness for C8 on a store holding two records with the same id: the
first one is returned, and an unknown id yields the 404 error. -/
theorem get_request_found_or_404_witness :
    (get_request "dup" demoStore).1 = .ok demoStoredA
      ∧ (get_request "zzz" demoStore).1 = .error notFoundError :=
  ⟨(get_request_found_or_404 "dup" demoStore).2.1 demoStoredA rfl,
   (get_request_found_or_404 "zzz" demoStore).2.2 rfl⟩

/-- Witness for C9 at the worked example: it is rejected and reports
issues. -/
theorem rules_reject_has_issue_witness :
    (evaluate_with_rules demoRequest).decision = "reject"
      ∧ (evaluate_with_rules demoRequest).issues ≠ [] :=
  ⟨by decide, rules_reject_has_issue demoRequest (by decide)⟩

end Onboarding

